import Mathlib

/-!
Verification of the architecture-reconciliation and controller-identification
logic of the Cat's HLE 1.3 frontend (`src/cats_hle_1.3x.py`).

The Python code is shallowly embedded: platform probes, subprocess calls,
the preference store, the filesystem state of the cores directory and the
network acquisition collaborator are passed in explicitly as environment /
state records; every modelled function is a pure, executable Lean function
translated line-by-line from the source.
-/

namespace CatsHLE

/-- ASCII lowering of one string, modelling Python `str.lower()` on the ASCII
strings that occur in the controller database and the probe outputs. -/
def lowerStr (s : String) : String := String.mk (s.data.map Char.toLower)

/-- `isSubList p s` holds when `p` occurs as a contiguous sublist of `s`;
together with `lowerStr` this models Python's `pat in s` substring test. -/
def isSubList (p : List Char) : List Char → Bool
  | [] => p.isEmpty
  | c :: cs => p.isPrefixOf (c :: cs) || isSubList p cs

/-- Python `pat in s` on strings (contiguous-substring containment). -/
def containsSub (pat s : String) : Bool := isSubList pat.data s.data

/-! ## Binary Architecture Prober (`get_binary_arch`, lines 703-724) -/

/-- Environment of one `get_binary_arch` call: the platform test
(`SYS_OS != "darwin"`), the `Path(binary_path).exists()` test, and the
outcome of the `lipo -archs` subprocess — `none` models the call raising
(timeout, missing tool, any exception caught by the bare `except`),
`some archs` models `result.stdout.strip().split()`. -/
structure BinEnv where
  isDarwin : Bool
  pathExists : Bool
  lipoTokens : Option (List String)
deriving DecidableEq, Repr

/-- `get_binary_arch` (lines 703-724): classify the token list exactly as the
source does; any failure yields `none` (Python `None`). The function is
read-only: it takes no filesystem state and returns none. -/
def get_binary_arch (e : BinEnv) : Option String :=
  if !e.isDarwin || !e.pathExists then none
  else
    match e.lipoTokens with
    | none => none
    | some archs =>
      if archs.contains "arm64" && archs.contains "x86_64" then some "universal"
      else if archs.contains "arm64" then some "arm64"
      else if archs.contains "x86_64" then some "x86_64"
      else none

/-! ## Host Runtime Resolver (`get_retroarch_running_arch`, lines 726-768) -/

/-- Environment of one `get_retroarch_running_arch` call.
`raExists` is `ra_exe.exists()`; `raProbe` is the `BinEnv` of the probe of the
RetroArch executable; `lsArchPriority` is the stdout of
`defaults read ... LSArchitecturePriority` (`none` = the call raised);
`rosettaReadOk` is `result.returncode == 0` of
`defaults read com.apple.rosetta RetroArch` (`none` = the call raised);
`isAppleSilicon` and `machine` are the module globals. -/
structure HostEnv where
  raExists : Bool
  raProbe : BinEnv
  lsArchPriority : Option String
  rosettaReadOk : Option Bool
  isAppleSilicon : Bool
  machine : String
deriving DecidableEq, Repr

/-- `get_retroarch_running_arch` (lines 726-768), translated branch for
branch from the source. -/
def get_retroarch_running_arch (env : HostEnv) : String :=
  if !env.raExists then env.machine
  else
    let binary_arch := get_binary_arch env.raProbe
    if binary_arch = some "universal" then
      if (match env.lsArchPriority with
          | some out => containsSub "x86_64" out
          | none => false) then "x86_64"
      else if (match env.rosettaReadOk with
          | some rc0 => rc0
          | none => false) then "x86_64"
      else if env.isAppleSilicon then "arm64" else "x86_64"
    else
      match binary_arch with
      | some a => a
      | none => env.machine

/-! ## Cores directory state and the Plugin Remediation Loop
(`verify_core_arch` lines 861-874, `find_n64_core` lines 876-882,
`install_core` lines 894-902, `install_core_forced` lines 904-932) -/

/-- State of the cores directory. `coreExists` is whether the single core
file `mupen64plus_next_libretro.<ext>` is present; `coreLipo` is the
`lipo -archs` outcome for that file (used when it is probed); `zipExists` is
whether `mupen64plus_next.zip` is present. `fix_core_permissions` /
`remove_quarantine` only touch permission bits and are not modelled. -/
structure FsState where
  coreExists : Bool
  coreLipo : Option (List String)
  zipExists : Bool
deriving DecidableEq, Repr

/-- Outcome of one call to the acquisition collaborator
(`download` + `zipfile.extractall`, all inside the one `try` of
`install_core_forced`): the download can raise before any byte is written
(`dlFailClean`), raise mid-stream leaving a partial zip (`dlFailPartial`),
the archive can fail to extract leaving the zip behind (`unzipFail`), or
succeed (`ok content`), where `content = some lipo` means the archive held a
core file with that `lipo` probe outcome and `content = none` means the
archive held no core file. -/
inductive AcqOutcome where
  | dlFailClean
  | dlFailPartial
  | unzipFail
  | ok (content : Option (Option (List String)))
deriving DecidableEq, Repr

/-- Environment of the remediation functions: the platform globals
(`SYS_OS == "darwin"`, `IS_APPLE_SILICON`, `RETROARCH_ARCH`,
`PATHS["core_arch"]`) and the acquisition collaborator's behaviour per
requested architecture string. -/
structure CoreEnv where
  isDarwin : Bool
  isAppleSilicon : Bool
  retroarchArch : Option String
  pathsCoreArch : String
  acq : String → AcqOutcome

/-- `find_n64_core` (lines 876-882): `some ()` iff the core file exists in
the cores directory (the returned `Path` itself is not modelled). -/
def find_n64_core (s : FsState) : Option Unit :=
  if s.coreExists then some () else none

/-- Python `RETROARCH_ARCH or default` in line 866: `None` and the empty
string are falsy. -/
def pyOrStr (x : Option String) (dflt : String) : String :=
  match x with
  | some a => if a = "" then dflt else a
  | none => dflt

/-- `verify_core_arch` (lines 861-874): returns the
`(is_valid, core_arch, needed_arch)` triple of the source. -/
def verify_core_arch (env : CoreEnv) (s : FsState) :
    Bool × Option String × Option String :=
  if !env.isDarwin || !s.coreExists then (true, none, none)
  else
    let core_arch := get_binary_arch ⟨env.isDarwin, s.coreExists, s.coreLipo⟩
    let needed_arch := pyOrStr env.retroarchArch
      (if env.isAppleSilicon then "arm64" else "x86_64")
    match core_arch with
    | some ca =>
      if ca = needed_arch ∨ ca = "universal" then (true, some ca, some needed_arch)
      else (false, some ca, some needed_arch)
    | none => (true, none, some needed_arch)

/-- `install_core_forced` (lines 904-932) as a state transformer. Returns
(core found after the attempt, new directory state, number of calls made to
the acquisition collaborator). The source first unlinks any stale zip, then
downloads, extracts, unlinks the zip and looks the core file up; the bare
`except` turns every failure into a `None` result, leaving whatever files
the failed step left behind. -/
def install_core_forced (env : CoreEnv) (arch : String) (s : FsState) :
    Option Unit × FsState × Nat :=
  let s0 : FsState := { s with zipExists := false }
  match env.acq arch with
  | .dlFailClean => (none, s0, 1)
  | .dlFailPartial => (none, { s0 with zipExists := true }, 1)
  | .unzipFail => (none, { s0 with zipExists := true }, 1)
  | .ok content =>
    let s1 : FsState :=
      match content with
      | some lipo => { s0 with coreExists := true, coreLipo := lipo }
      | none => s0
    (find_n64_core s1, s1, 1)

/-- `install_core` (lines 894-902): find the existing core; if its
architecture verdict is invalid, unlink it and reacquire the needed
architecture; if no core exists, acquire `PATHS["core_arch"]`. In the
invalid branch the source's `needed_arch` is always a string (`getD ""`
models the unreachable `None` case). -/
def install_core (env : CoreEnv) (s : FsState) : Option Unit × FsState × Nat :=
  match find_n64_core s with
  | some _ =>
    match verify_core_arch env s with
    | (true, _, _) => (some (), s, 0)
    | (false, _, needed_arch) =>
      let s' : FsState := { s with coreExists := false, coreLipo := none }
      install_core_forced env (needed_arch.getD "") s'
  | none => install_core_forced env env.pathsCoreArch s

/-! ## Compatibility verdicts (spec §4.2 rule table) -/

/-- The spec's `CompatibilityVerdict` vocabulary. -/
inductive Verdict where
  | compatible
  | compatibleViaUniversal
  | mismatched
  | indeterminate
deriving DecidableEq, Repr

/-- Spec-side classifier, written from the §4.2 rule table (NOT from the
source): equal known variants are `compatible`, a `universal` plugin with a
known host is `compatibleViaUniversal`, known unequal variants are
`mismatched`, and an unknown on either side is `indeterminate`. Used to
compare the source's boolean verdict against the spec's classification. -/
def specVerdict (plugin host : Option String) : Verdict :=
  match plugin, host with
  | some p, some h =>
    if p = h then .compatible
    else if p = "universal" then .compatibleViaUniversal
    else .mismatched
  | _, _ => .indeterminate

/-! ## Controller data model (`CONTROLLER_DATABASE`, lines 62-485) -/

/-- An `n64_map` value: either the sentinel string `"native"` or a dict from
profile button name to N64 scheme button name (modelled as the association
list of the dict literal, in source order; dict keys are unique). -/
inductive N64Map where
  | native
  | table (m : List (String × String))
deriving DecidableEq, Repr

/-- One `CONTROLLER_DATABASE` entry. `key` is the dict key; absent
`product_patterns` / `product_ids` are the empty list and absent
`auto_detect` is `false`, exactly as the `data.get(..., default)` reads in
`_identify_controller` treat them. The `buttons` and `features` fields are
never read by any modelled function and are omitted. -/
structure Profile where
  key : String
  name : String
  year : Nat
  vendor_ids : List String
  product_ids : List String
  product_patterns : List String
  n64_map : N64Map
  auto_detect : Bool
deriving DecidableEq, Repr

/-- A detection result: the dict built by `_identify_controller` (the
`connection` field added by the scanner is presentation-only and omitted). -/
structure Ctrl where
  id : String
  name : String
  year : Nat
  detected_name : String
  vendor_id : String
  product_id : String
  n64_map : N64Map
  auto_detect : Bool
deriving DecidableEq, Repr

/-! Registry entries, transcribed one-to-one from `CONTROLLER_DATABASE`
(lines 62-485), in declaration order. Field order:
key, name, year, vendor_ids, product_ids, product_patterns, n64_map,
auto_detect. -/

def db_nes : Profile :=
  ⟨"nes", "NES Controller", 1985, ["0x0079"], [], [],
   .table [("A", "a"), ("B", "b"), ("Start", "start")], false⟩

def db_atari_7800 : Profile :=
  ⟨"atari_7800", "Atari 7800 ProLine", 1986, ["0x0001"], [], [],
   .table [("Fire1", "a"), ("Fire2", "b")], false⟩

def db_master_system : Profile :=
  ⟨"master_system", "Sega Master System", 1986, [], [], [],
   .table [("1", "a"), ("2", "b")], false⟩

def db_snes : Profile :=
  ⟨"snes", "SNES Controller", 1990, ["0x0079", "0x081F"], [], [],
   .table [("A", "a"), ("B", "b"), ("X", "c_up"), ("Y", "c_left"),
     ("L", "l"), ("R", "r"), ("Start", "start")], false⟩

def db_genesis_3btn : Profile :=
  ⟨"genesis_3btn", "Sega Genesis 3-Button", 1989, ["0x0079"], [], [],
   .table [("A", "a"), ("B", "b"), ("C", "c_down"), ("Start", "start")], false⟩

def db_genesis_6btn : Profile :=
  ⟨"genesis_6btn", "Sega Genesis 6-Button", 1993, ["0x0079", "0x1BAD"], [], [],
   .table [("A", "a"), ("B", "b"), ("C", "c_down"), ("X", "c_up"),
     ("Y", "c_left"), ("Z", "c_right"), ("Start", "start")], false⟩

def db_turbografx : Profile :=
  ⟨"turbografx", "TurboGrafx-16", 1989, [], [], [],
   .table [("I", "a"), ("II", "b"), ("Run", "start")], false⟩

def db_neo_geo : Profile :=
  ⟨"neo_geo", "Neo Geo AES", 1990, [], [], [],
   .table [("A", "a"), ("B", "b"), ("C", "c_down"), ("D", "c_right"),
     ("Start", "start")], false⟩

def db_ps1 : Profile :=
  ⟨"ps1", "PlayStation DualShock", 1997, ["0x054C"], [], [],
   .table [("X", "a"), ("O", "b"), ("Square", "c_left"), ("Triangle", "c_up"),
     ("L1", "l"), ("R1", "r"), ("L2", "z"), ("Start", "start"),
     ("Left Stick", "analog")], false⟩

def db_saturn : Profile :=
  ⟨"saturn", "Sega Saturn", 1995, ["0x0CA3"], [], [],
   .table [("A", "a"), ("B", "b"), ("C", "c_down"), ("X", "c_up"),
     ("Y", "c_left"), ("Z", "c_right"), ("L", "l"), ("R", "r"),
     ("Start", "start")], false⟩

def db_n64 : Profile :=
  ⟨"n64", "Nintendo 64", 1996, ["0x0079", "0x057E"], [], [], .native, false⟩

def db_dreamcast : Profile :=
  ⟨"dreamcast", "Sega Dreamcast", 1999, ["0x0CA3"], [], [],
   .table [("A", "a"), ("B", "b"), ("X", "c_up"), ("Y", "c_left"),
     ("L", "l"), ("R", "r"), ("Start", "start"),
     ("Analog Stick", "analog")], false⟩

def db_ps2 : Profile :=
  ⟨"ps2", "PlayStation 2 DualShock 2", 2000, ["0x054C"], [], [],
   .table [("X", "a"), ("O", "b"), ("Square", "c_left"), ("Triangle", "c_up"),
     ("L1", "l"), ("R1", "r"), ("L2", "z"), ("Start", "start"),
     ("Left Stick", "analog")], false⟩

def db_xbox_duke : Profile :=
  ⟨"xbox_duke", "Xbox Duke", 2001, ["0x045E"], [], [],
   .table [("A", "a"), ("B", "b"), ("X", "c_up"), ("Y", "c_left"),
     ("Black", "c_right"), ("White", "c_down"), ("L", "l"), ("R", "r"),
     ("Start", "start"), ("Left Stick", "analog")], false⟩

def db_xbox_s : Profile :=
  ⟨"xbox_s", "Xbox Controller S", 2002, ["0x045E"], [], [],
   .table [("A", "a"), ("B", "b"), ("X", "c_up"), ("Y", "c_left"),
     ("L", "l"), ("R", "r"), ("Start", "start"),
     ("Left Stick", "analog")], false⟩

def db_gamecube : Profile :=
  ⟨"gamecube", "Nintendo GameCube", 2001, ["0x057E", "0x0079"], [], [],
   .table [("A", "a"), ("B", "b"), ("X", "c_up"), ("Y", "c_left"),
     ("Z", "z"), ("L", "l"), ("R", "r"), ("Start", "start"),
     ("Control Stick", "analog"), ("C-Stick", "c_buttons")], false⟩

def db_xbox_360 : Profile :=
  ⟨"xbox_360", "Xbox 360", 2005, ["0x045E", "0x24C6", "0x0738"], [],
   ["Xbox 360", "X360"],
   .table [("A", "a"), ("B", "b"), ("X", "c_up"), ("Y", "c_left"),
     ("LB", "l"), ("RB", "r"), ("LT", "z"), ("Start", "start"),
     ("Left Stick", "analog"), ("Right Stick", "c_buttons")], false⟩

def db_ps3 : Profile :=
  ⟨"ps3", "PlayStation 3 DualShock 3/Sixaxis", 2006, ["0x054C"], [],
   ["PLAYSTATION(R)3", "DUALSHOCK 3", "SIXAXIS"],
   .table [("X", "a"), ("O", "b"), ("Square", "c_left"), ("Triangle", "c_up"),
     ("L1", "l"), ("R1", "r"), ("L2", "z"), ("Start", "start"),
     ("Left Stick", "analog"), ("Right Stick", "c_buttons")], false⟩

def db_wii_remote : Profile :=
  ⟨"wii_remote", "Wii Remote", 2006, ["0x057E"], [],
   ["Wii Remote", "RVL-CNT"],
   .table [("A", "a"), ("B", "b"), ("1", "c_down"), ("2", "c_up"),
     ("+", "start")], false⟩

def db_wii_classic : Profile :=
  ⟨"wii_classic", "Wii Classic Controller", 2006, ["0x057E"], [], [],
   .table [("a", "a"), ("b", "b"), ("x", "c_up"), ("y", "c_left"),
     ("L", "l"), ("R", "r"), ("ZL", "z"), ("+", "start"),
     ("Left Stick", "analog")], false⟩

def db_wii_u_pro : Profile :=
  ⟨"wii_u_pro", "Wii U Pro Controller", 2012, ["0x057E"], [],
   ["Wii U Pro"],
   .table [("A", "a"), ("B", "b"), ("X", "c_up"), ("Y", "c_left"),
     ("L", "l"), ("R", "r"), ("ZL", "z"), ("+", "start"),
     ("Left Stick", "analog"), ("Right Stick", "c_buttons")], false⟩

def db_wii_u_gamepad : Profile :=
  ⟨"wii_u_gamepad", "Wii U GamePad", 2012, ["0x057E"], [], [],
   .table [("A", "a"), ("B", "b"), ("X", "c_up"), ("Y", "c_left"),
     ("L", "l"), ("R", "r"), ("ZL", "z"), ("+", "start"),
     ("Left Stick", "analog")], false⟩

def db_ps4 : Profile :=
  ⟨"ps4", "PlayStation 4 DualShock 4", 2013, ["0x054C"],
   ["0x05C4", "0x09CC", "0x0BA0"],
   ["DualShock 4", "Wireless Controller"],
   .table [("X", "a"), ("O", "b"), ("Square", "c_left"), ("Triangle", "c_up"),
     ("L1", "l"), ("R1", "r"), ("L2", "z"), ("Options", "start"),
     ("Left Stick", "analog"), ("Right Stick", "c_buttons")], false⟩

def db_xbox_one : Profile :=
  ⟨"xbox_one", "Xbox One", 2013, ["0x045E", "0x0E6F", "0x24C6"],
   ["0x02D1", "0x02DD", "0x02E3", "0x02EA", "0x0B00", "0x0B0A", "0x0B12"],
   ["Xbox One", "Xbox Wireless"],
   .table [("A", "a"), ("B", "b"), ("X", "c_up"), ("Y", "c_left"),
     ("LB", "l"), ("RB", "r"), ("LT", "z"), ("Menu", "start"),
     ("Left Stick", "analog"), ("Right Stick", "c_buttons")], false⟩

def db_steam_controller : Profile :=
  ⟨"steam_controller", "Steam Controller", 2015, ["0x28DE"], [],
   ["Steam Controller", "Valve Software Steam Controller"],
   .table [("A", "a"), ("B", "b"), ("X", "c_up"), ("Y", "c_left"),
     ("LB", "l"), ("RB", "r"), ("LT", "z"), ("Start", "start"),
     ("Joystick", "analog"), ("Right Trackpad", "c_buttons")], false⟩

def db_switch_pro : Profile :=
  ⟨"switch_pro", "Nintendo Switch Pro Controller", 2017, ["0x057E"],
   ["0x2009"], ["Pro Controller", "Switch Pro"],
   .table [("A", "a"), ("B", "b"), ("X", "c_up"), ("Y", "c_left"),
     ("L", "l"), ("R", "r"), ("ZL", "z"), ("+", "start"),
     ("Left Stick", "analog"), ("Right Stick", "c_buttons")], true⟩

def db_joycon_l : Profile :=
  ⟨"joycon_l", "Nintendo Switch Joy-Con (L)", 2017, ["0x057E"],
   ["0x2006"], ["Joy-Con (L)", "Joy-Con Left"],
   .table [("L", "l"), ("ZL", "z"), ("-", "start"), ("Stick", "analog")], true⟩

def db_joycon_r : Profile :=
  ⟨"joycon_r", "Nintendo Switch Joy-Con (R)", 2017, ["0x057E"],
   ["0x2007"], ["Joy-Con (R)", "Joy-Con Right"],
   .table [("A", "a"), ("B", "b"), ("X", "c_up"), ("Y", "c_left"),
     ("R", "r"), ("ZR", "z"), ("+", "start"), ("Stick", "c_buttons")], true⟩

def db_joycon_pair : Profile :=
  ⟨"joycon_pair", "Nintendo Switch Joy-Con Pair", 2017, ["0x057E"], [],
   ["Joy-Con", "Combined Joy-Con"],
   .table [("A", "a"), ("B", "b"), ("X", "c_up"), ("Y", "c_left"),
     ("L", "l"), ("R", "r"), ("ZL", "z"), ("+", "start"),
     ("Left Stick", "analog"), ("Right Stick", "c_buttons")], true⟩

def db_switch_snes : Profile :=
  ⟨"switch_snes", "Nintendo Switch SNES Controller", 2019, ["0x057E"],
   ["0x2017"], [],
   .table [("A", "a"), ("B", "b"), ("X", "c_up"), ("Y", "c_left"),
     ("L", "l"), ("R", "r"), ("+", "start")], false⟩

def db_switch_n64 : Profile :=
  ⟨"switch_n64", "Nintendo Switch N64 Controller", 2021, ["0x057E"],
   ["0x2019"], [], .native, true⟩

def db_ps5 : Profile :=
  ⟨"ps5", "PlayStation 5 DualSense", 2020, ["0x054C"],
   ["0x0CE6", "0x0DF2"], ["DualSense", "PS5 Controller"],
   .table [("X", "a"), ("O", "b"), ("Square", "c_left"), ("Triangle", "c_up"),
     ("L1", "l"), ("R1", "r"), ("L2", "z"), ("Options", "start"),
     ("Left Stick", "analog"), ("Right Stick", "c_buttons")], true⟩

def db_ps5_edge : Profile :=
  ⟨"ps5_edge", "PlayStation 5 DualSense Edge", 2023, ["0x054C"],
   ["0x0D5E"], [],
   .table [("X", "a"), ("O", "b"), ("Square", "c_left"), ("Triangle", "c_up"),
     ("L1", "l"), ("R1", "r"), ("L2", "z"), ("Options", "start"),
     ("Left Stick", "analog"), ("Right Stick", "c_buttons")], true⟩

def db_xbox_series : Profile :=
  ⟨"xbox_series", "Xbox Series X|S", 2020, ["0x045E"],
   ["0x0B13", "0x0B20", "0x0B21", "0x0B22"],
   ["Xbox Series", "Xbox Wireless Controller"],
   .table [("A", "a"), ("B", "b"), ("X", "c_up"), ("Y", "c_left"),
     ("LB", "l"), ("RB", "r"), ("LT", "z"), ("Menu", "start"),
     ("Left Stick", "analog"), ("Right Stick", "c_buttons")], true⟩

def db_xbox_elite_2 : Profile :=
  ⟨"xbox_elite_2", "Xbox Elite Series 2", 2019, ["0x045E"],
   ["0x0B00", "0x0B05"], [],
   .table [("A", "a"), ("B", "b"), ("X", "c_up"), ("Y", "c_left"),
     ("LB", "l"), ("RB", "r"), ("LT", "z"), ("Menu", "start"),
     ("Left Stick", "analog"), ("Right Stick", "c_buttons")], true⟩

def db_8bitdo_pro2 : Profile :=
  ⟨"8bitdo_pro2", "8BitDo Pro 2", 2021, ["0x2DC8", "0x045E"], [],
   ["8BitDo Pro 2", "Pro 2"],
   .table [("A", "a"), ("B", "b"), ("X", "c_up"), ("Y", "c_left"),
     ("L", "l"), ("R", "r"), ("L2", "z"), ("+", "start"),
     ("Left Stick", "analog"), ("Right Stick", "c_buttons")], true⟩

def db_8bitdo_sn30 : Profile :=
  ⟨"8bitdo_sn30", "8BitDo SN30 Pro", 2018, ["0x2DC8"], [],
   ["8BitDo SN30", "SN30 Pro"],
   .table [("A", "a"), ("B", "b"), ("X", "c_up"), ("Y", "c_left"),
     ("L", "l"), ("R", "r"), ("L2", "z"), ("+", "start"),
     ("Left Stick", "analog")], false⟩

def db_8bitdo_ultimate : Profile :=
  ⟨"8bitdo_ultimate", "8BitDo Ultimate Controller", 2022, ["0x2DC8"], [],
   ["8BitDo Ultimate", "Ultimate Controller"],
   .table [("A", "a"), ("B", "b"), ("X", "c_up"), ("Y", "c_left"),
     ("L", "l"), ("R", "r"), ("L2", "z"), ("+", "start"),
     ("Left Stick", "analog"), ("Right Stick", "c_buttons")], true⟩

def db_backbone_one : Profile :=
  ⟨"backbone_one", "Backbone One", 2020, ["0x358A"], [],
   ["Backbone One", "Backbone"],
   .table [("A", "a"), ("B", "b"), ("X", "c_up"), ("Y", "c_left"),
     ("L1", "l"), ("R1", "r"), ("L2", "z"), ("Menu", "start"),
     ("Left Stick", "analog"), ("Right Stick", "c_buttons")], true⟩

def db_razer_kishi : Profile :=
  ⟨"razer_kishi", "Razer Kishi", 2020, ["0x1532"], [],
   ["Razer Kishi", "Kishi"],
   .table [("A", "a"), ("B", "b"), ("X", "c_up"), ("Y", "c_left"),
     ("L1", "l"), ("R1", "r"), ("L2", "z"), ("Menu", "start"),
     ("Left Stick", "analog"), ("Right Stick", "c_buttons")], true⟩

def db_gulikit_kingkong : Profile :=
  ⟨"gulikit_kingkong", "GuliKit KingKong Pro", 2021, ["0x0E8F"], [],
   ["GuliKit", "KingKong"],
   .table [("A", "a"), ("B", "b"), ("X", "c_up"), ("Y", "c_left"),
     ("L", "l"), ("R", "r"), ("ZL", "z"), ("+", "start"),
     ("Left Stick", "analog"), ("Right Stick", "c_buttons")], true⟩

def db_hori_split_pad : Profile :=
  ⟨"hori_split_pad", "HORI Split Pad Pro", 2019, ["0x0F0D"], [],
   ["Split Pad", "HORI"],
   .table [("A", "a"), ("B", "b"), ("X", "c_up"), ("Y", "c_left"),
     ("L", "l"), ("R", "r"), ("ZL", "z"), ("+", "start"),
     ("Left Stick", "analog"), ("Right Stick", "c_buttons")], true⟩

def db_arcade_stick : Profile :=
  ⟨"arcade_stick", "Generic Arcade Stick", 1980, [], [],
   ["Arcade", "Fight Stick", "Fightstick"],
   .table [("1", "a"), ("2", "b"), ("3", "c_down"), ("4", "c_up"),
     ("5", "l"), ("6", "r"), ("Start", "start"),
     ("Joystick", "analog")], false⟩

def db_hori_rap : Profile :=
  ⟨"hori_rap", "HORI Real Arcade Pro", 2005, ["0x0F0D"], [],
   ["Real Arcade Pro", "RAP", "HORI Arcade"],
   .table [("X", "a"), ("O", "b"), ("Square", "c_left"), ("Triangle", "c_up"),
     ("L1", "l"), ("R1", "r"), ("L2", "z"), ("Options", "start"),
     ("Joystick", "analog")], false⟩

def db_raphnet_n64 : Profile :=
  ⟨"raphnet_n64", "Raphnet N64 to USB", 2010, ["0x289B"], [],
   ["raphnet", "N64 to USB"], .native, false⟩

def db_mayflash_n64 : Profile :=
  ⟨"mayflash_n64", "Mayflash N64 Adapter", 2012, ["0x0079", "0x0E8F"], [],
   ["Mayflash", "N64"], .native, false⟩

def db_retro_usb : Profile :=
  ⟨"retro_usb", "RetroUSB AVS/Retro Controller", 2010, ["0x1781"], [],
   ["RetroUSB", "AVS"],
   .table [("A", "a"), ("B", "b"), ("Start", "start")], false⟩

def db_generic_xinput : Profile :=
  ⟨"generic_xinput", "Generic XInput Controller", 2005, [], [],
   ["XInput", "Controller", "Gamepad", "Game Controller"],
   .table [("A", "a"), ("B", "b"), ("X", "c_up"), ("Y", "c_left"),
     ("LB", "l"), ("RB", "r"), ("LT", "z"), ("Start", "start"),
     ("Left Stick", "analog"), ("Right Stick", "c_buttons")], false⟩

def db_generic_dinput : Profile :=
  ⟨"generic_dinput", "Generic DirectInput Controller", 1995, [], [],
   ["DirectInput", "USB Gamepad", "USB Joystick"],
   .table [("Button 1", "a"), ("Button 2", "b"), ("Button 3", "c_down"),
     ("Button 4", "c_up"), ("L1", "l"), ("R1", "r"),
     ("Start", "start")], false⟩

/-- `CONTROLLER_DATABASE` in its Python 3.7+ insertion (declaration)
order, which is the iteration order of `_identify_controller`. -/
def CONTROLLER_DATABASE : List Profile :=
  [db_nes, db_atari_7800, db_master_system, db_snes, db_genesis_3btn,
   db_genesis_6btn, db_turbografx, db_neo_geo, db_ps1, db_saturn, db_n64,
   db_dreamcast, db_ps2, db_xbox_duke, db_xbox_s, db_gamecube, db_xbox_360,
   db_ps3, db_wii_remote, db_wii_classic, db_wii_u_pro, db_wii_u_gamepad,
   db_ps4, db_xbox_one, db_steam_controller, db_switch_pro, db_joycon_l,
   db_joycon_r, db_joycon_pair, db_switch_snes, db_switch_n64, db_ps5,
   db_ps5_edge, db_xbox_series, db_xbox_elite_2, db_8bitdo_pro2,
   db_8bitdo_sn30, db_8bitdo_ultimate, db_backbone_one, db_razer_kishi,
   db_gulikit_kingkong, db_hori_split_pad, db_arcade_stick, db_hori_rap,
   db_raphnet_n64, db_mayflash_n64, db_retro_usb, db_generic_xinput,
   db_generic_dinput]

/-! ## Controller Matcher (`_identify_controller`, lines 562-629) -/

/-- Tier 1 test for one profile: some pattern of `product_patterns` occurs
(case-insensitively) in the already-lowered device name (lines 568-571). -/
def tier1Hit (p : Profile) (name_lower : String) : Bool :=
  p.product_patterns.any (fun pat => containsSub (lowerStr pat) name_lower)

/-- Tier 2 test for one profile: some vendor id occurs in the device's
vendor-id string; when the profile lists product ids, some product id must
also occur in the device's product-id string (lines 583-612). -/
def tier2Hit (p : Profile) (vendor_id product_id : String) : Bool :=
  p.vendor_ids.any (fun vid =>
    containsSub (lowerStr vid) (lowerStr vendor_id) &&
    (if p.product_ids.isEmpty then true
     else p.product_ids.any (fun pid =>
       containsSub (lowerStr pid) (lowerStr product_id))))

/-- The result dict built at every return of `_identify_controller` for a
registry hit — identical in all three return sites (lines 572-581, 592-601,
603-612). -/
def mkHit (p : Profile) (name vendor_id product_id : String) : Ctrl :=
  ⟨p.key, p.name, p.year, name, vendor_id, product_id, p.n64_map,
   p.auto_detect⟩

/-- The generic keyword list of line 615. -/
def controller_keywords : List String :=
  ["controller", "gamepad", "joystick", "joypad", "game pad"]

/-- The Tier-3 synthesized unknown-profile dict (lines 618-627). -/
def genericHit (name vendor_id product_id : String) : Ctrl :=
  ⟨"generic_xinput", "Unknown Controller (" ++ name ++ ")", 2000, name,
   vendor_id, product_id, db_generic_xinput.n64_map, false⟩

/-- `_identify_controller` (lines 562-629). The source walks the registry
once in declaration order and, per profile, checks the name patterns and
then the vendor/product ids, returning on the first hit of either kind;
after the walk it falls back to the generic-keyword tier. -/
def identify_controller (db : List Profile) (name vendor_id product_id : String) :
    Option Ctrl :=
  let name_lower := lowerStr name
  match db.find? (fun p => tier1Hit p name_lower || tier2Hit p vendor_id product_id) with
  | some p => some (mkHit p name vendor_id product_id)
  | none =>
    if controller_keywords.any (fun k => containsSub k name_lower) then
      some (genericHit name vendor_id product_id)
    else none

/-! ## Controller Selection Policy (`detect_all`, lines 631-663) -/

/-- The sort comparison induced by the key
`(not auto_detect, year)` of line 642, ascending (Python `False < True`). -/
def scanKeyLe (a b : Ctrl) : Bool :=
  (a.auto_detect && !b.auto_detect) ||
  ((a.auto_detect == b.auto_detect) && a.year.ble b.year)

/-- Insert into an already-sorted scan list, before the first element it
compares `≤` to; folding this over the list is a stable sort and hence
agrees with Python's stable `list.sort(key=...)`. -/
def scanInsert (a : Ctrl) : List Ctrl → List Ctrl
  | [] => [a]
  | b :: l => if scanKeyLe a b then a :: b :: l else b :: scanInsert a l

/-- The `detected_controllers.sort` of line 642. -/
def sortScan : List Ctrl → List Ctrl
  | [] => []
  | a :: l => scanInsert a (sortScan l)

/-- The auto-selection block of lines 645-651, operating on the sorted list
and on the manager's previous `active_controller` (which `detect_all` never
resets): pick the first `auto_detect` controller; otherwise, if no
controller is currently active, pick the first controller; an empty list
leaves the previous selection untouched. -/
def selectActive (prev : Option Ctrl) (sorted : List Ctrl) : Option Ctrl :=
  if sorted.isEmpty then prev
  else
    match sorted.find? (fun c => c.auto_detect) with
    | some c => some c
    | none =>
      match prev with
      | some p => some p
      | none => sorted.head?

/-- `detect_all` (lines 631-663) as a transformer of the manager state
`(detected_controllers, active_controller)`: the scan result (the raw list
produced by `detect_controllers_macos`, or `[]` off macOS) wholesale
replaces the previous list, sorted; the active selection is updated by
`selectActive`. -/
def detect_all (prev : Option Ctrl) (scan : List Ctrl) :
    List Ctrl × Option Ctrl :=
  let sorted := sortScan scan
  (sorted, selectActive prev sorted)

/-! ## Mapping Emitter (`get_retroarch_config`, lines 665-690) -/

/-- Python `d.get(k, dflt)` on the string dict. -/
def dictGet (m : List (String × String)) (k dflt : String) : String :=
  match m.lookup k with
  | some v => v
  | none => dflt

/-- `get_retroarch_config` (lines 665-690). The emitted config string is
modelled as the list of `(setting, value)` pairs its six
`input_player1_*` lines interpolate, in source order; `none` models the
`return None` paths (no active controller / the `"native"` sentinel). -/
def get_retroarch_config (active : Option Ctrl) :
    Option (List (String × String)) :=
  match active with
  | none => none
  | some c =>
    match c.n64_map with
    | .native => none
    | .table m =>
      some [("input_player1_a", dictGet m "a" "a"),
            ("input_player1_b", dictGet m "b" "b"),
            ("input_player1_start", dictGet m "start" "start"),
            ("input_player1_l", dictGet m "l" "l"),
            ("input_player1_r", dictGet m "r" "r"),
            ("input_player1_l2", dictGet m "z" "l2")]

/-! ## Helper lemmas -/

theorem install_core_forced_one_call (env : CoreEnv) (arch : String)
    (s : FsState) : (install_core_forced env arch s).2.2 = 1 := by
  unfold install_core_forced
  cases env.acq arch <;> rfl

theorem dictGet_eq (m : List (String × String)) (k d : String) :
    dictGet m k d = (m.lookup k).getD d := by
  cases h : m.lookup k <;> simp [dictGet, h]

theorem mem_scanInsert (a x : Ctrl) (l : List Ctrl) :
    x ∈ scanInsert a l ↔ x = a ∨ x ∈ l := by
  induction l with
  | nil => simp [scanInsert]
  | cons b t ih =>
    unfold scanInsert
    split
    · simp [List.mem_cons]
    · simp only [List.mem_cons, ih]
      tauto

theorem mem_sortScan (x : Ctrl) (l : List Ctrl) :
    x ∈ sortScan l ↔ x ∈ l := by
  induction l with
  | nil => simp [sortScan]
  | cons a t ih => simp [sortScan, mem_scanInsert, ih]

theorem identify_cons_no_match (q : Profile) (db : List Profile)
    (name vid pid : String)
    (h1 : tier1Hit q (lowerStr name) = false)
    (h2 : tier2Hit q vid pid = false) :
    identify_controller (q :: db) name vid pid =
      identify_controller db name vid pid := by
  unfold identify_controller
  simp [List.find?_cons, h1, h2]

theorem identify_cons_tier1 (p : Profile) (db : List Profile)
    (name vid pid : String)
    (hp : tier1Hit p (lowerStr name) = true) :
    identify_controller (p :: db) name vid pid =
      some (mkHit p name vid pid) := by
  unfold identify_controller
  simp [List.find?_cons, hp]

/-! ## Claim theorems -/

/-- C6: in every invocation of the Plugin Remediation Loop
(`install_core`), the acquisition collaborator (`download` + unpack inside
`install_core_forced`) is called at most once, for every environment and
cores-directory state — there is never a second reacquisition attempt
within one invocation, whatever the post-repair outcome. -/
theorem C6_at_most_one_acquisition (env : CoreEnv) (s : FsState) :
    (install_core env s).2.2 ≤ 1 := by
  unfold install_core
  cases hf : find_n64_core s with
  | none => exact (install_core_forced_one_call env _ _).le
  | some u =>
    rcases hv : verify_core_arch env s with ⟨b, ca, na⟩
    cases b
    · exact (install_core_forced_one_call env _ _).le
    · exact Nat.zero_le 1

/-- C8: the Binary Architecture Prober (`get_binary_arch`) never
propagates an error: it returns `none` (Unknown) whenever the platform is
not macOS, the path does not exist, or the underlying `lipo` inspection
call fails or times out; it is a pure function of its read-only probe
environment, so it has no side effect on the inspected file. -/
theorem C8_prober_returns_unknown (env : BinEnv)
    (h : env.isDarwin = false ∨ env.pathExists = false ∨
      env.lipoTokens = none) :
    get_binary_arch env = none := by
  unfold get_binary_arch
  rcases h with h | h | h
  · simp [h]
  · simp [h]
  · rw [h]
    split
    · rfl
    · rfl

/-- C8 witness: a probe on a non-macOS platform yields Unknown. -/
theorem C8_witness :
    get_binary_arch ⟨false, true, some ["arm64"]⟩ = none :=
  C8_prober_returns_unknown ⟨false, true, some ["arm64"]⟩ (Or.inl rfl)

/-- C9: on a non-macOS platform the Plugin Compatibility Validator
(`verify_core_arch`) accepts every plugin path unconditionally — it reports
valid with both variants undetermined, even when the file is absent — and
an existing core is then returned by `install_core` without any
remediation, so compatibility checking never blocks installation off
macOS. -/
theorem C9_nondarwin_accepts_all (env : CoreEnv) (s : FsState)
    (h : env.isDarwin = false) :
    verify_core_arch env s = (true, none, none) ∧
    (s.coreExists = true → install_core env s = (some (), s, 0)) := by
  have hv : verify_core_arch env s = (true, none, none) := by
    unfold verify_core_arch
    simp [h]
  refine ⟨hv, fun hc => ?_⟩
  unfold install_core
  simp [find_n64_core, hc, hv]

/-- C9 witness: off macOS, an absent plugin file still verifies as valid
with both variants undetermined, and a present core is returned as-is. -/
theorem C9_witness :
    verify_core_arch
        (⟨false, false, none, "x86_64", fun _ => AcqOutcome.dlFailClean⟩ : CoreEnv)
        (⟨false, none, false⟩ : FsState) = (true, none, none) ∧
    install_core
        (⟨false, false, none, "x86_64", fun _ => AcqOutcome.dlFailClean⟩ : CoreEnv)
        (⟨true, none, false⟩ : FsState) =
      (some (), (⟨true, none, false⟩ : FsState), 0) :=
  ⟨(C9_nondarwin_accepts_all _ _ rfl).1,
   (C9_nondarwin_accepts_all _ _ rfl).2 rfl⟩

/-- C5: the Validator's boolean verdict agrees with the spec's §4.2
classification table for every plugin/host variant pair: it passes exactly
when the pair is not `Mismatched` (equal known variants are Compatible, a
universal plugin with a known host is CompatibleViaUniversal), an
undetermined side is Indeterminate and always passes, and a passing verdict
makes reconciliation a no-op: `install_core` returns the existing core with
zero acquisition calls and the directory state unchanged. -/
theorem C5_validator_matches_table (env : CoreEnv) (s : FsState) :
    ((verify_core_arch env s).1 = true ↔
      specVerdict (verify_core_arch env s).2.1 (verify_core_arch env s).2.2 ≠
        Verdict.mismatched) ∧
    ((verify_core_arch env s).2.1 = none ∨ (verify_core_arch env s).2.2 = none →
      (verify_core_arch env s).1 = true) ∧
    (s.coreExists = true → (verify_core_arch env s).1 = true →
      install_core env s = (some (), s, 0)) := by
  have hmain : (verify_core_arch env s).1 = true ↔
      specVerdict (verify_core_arch env s).2.1 (verify_core_arch env s).2.2 ≠
        Verdict.mismatched := by
    cases hD : env.isDarwin with
    | false => simp [verify_core_arch, hD, specVerdict]
    | true =>
      cases hC : s.coreExists with
      | false => simp [verify_core_arch, hD, hC, specVerdict]
      | true =>
        cases hP : get_binary_arch ⟨true, true, s.coreLipo⟩ with
        | none =>
          have hV : verify_core_arch env s = (true, none,
              some (pyOrStr env.retroarchArch
                (if env.isAppleSilicon then "arm64" else "x86_64"))) := by
            simp [verify_core_arch, hD, hC, hP]
          rw [hV]
          simp [specVerdict]
        | some ca =>
          by_cases he : ca = pyOrStr env.retroarchArch
              (if env.isAppleSilicon then "arm64" else "x86_64") ∨
              ca = "universal"
          · have hV : verify_core_arch env s = (true, some ca,
                some (pyOrStr env.retroarchArch
                  (if env.isAppleSilicon then "arm64" else "x86_64"))) := by
              simp [verify_core_arch, hD, hC, hP, he]
            rw [hV]
            rcases he with he | he
            · simp [specVerdict, he]
            · subst he
              simp only [specVerdict]
              refine ⟨fun _ => ?_, fun _ => trivial⟩
              split
              · split <;> simp
              · split <;> simp
          · have hV : verify_core_arch env s = (false, some ca,
                some (pyOrStr env.retroarchArch
                  (if env.isAppleSilicon then "arm64" else "x86_64"))) := by
              simp [verify_core_arch, hD, hC, hP, he]
            rw [hV]
            push_neg at he
            simp [specVerdict, he.1, he.2]
  refine ⟨hmain, ?_, ?_⟩
  · intro h
    refine hmain.mpr ?_
    rcases h with h | h
    · rw [h]
      cases (verify_core_arch env s).2.2 <;> simp [specVerdict]
    · rw [h]
      cases (verify_core_arch env s).2.1 <;> simp [specVerdict]
  · intro hc hv
    unfold install_core
    rcases hV : verify_core_arch env s with ⟨b, ca, na⟩
    rw [hV] at hv
    simp at hv
    subst hv
    simp [find_n64_core, hc, hV]

/-- C5 witness: equal known variants (arm64/arm64) pass validation and the
existing core is returned with no acquisition call. -/
theorem C5_witness :
    install_core
        (⟨true, true, some "arm64", "arm64", fun _ => AcqOutcome.dlFailClean⟩ : CoreEnv)
        (⟨true, some ["arm64"], false⟩ : FsState) =
      (some (), (⟨true, some ["arm64"], false⟩ : FsState), 0) :=
  (C5_validator_matches_table
      (⟨true, true, some "arm64", "arm64", fun _ => AcqOutcome.dlFailClean⟩ : CoreEnv)
      (⟨true, some ["arm64"], false⟩ : FsState)).2.2 rfl (by decide)

/-- C2 counterexample: a mismatched x86_64 core with needed variant arm64
is deleted before reacquisition; when the download then fails mid-stream,
the previous artifact is NOT left as it was (the core file is gone) and a
partial zip file remains installed in the cores directory — refuting the
claim at this concrete input. -/
theorem C2_counterexample :
    (⟨true, some ["x86_64"], false⟩ : FsState).coreExists = true ∧
    (verify_core_arch
        (⟨true, true, some "arm64", "arm64", fun _ => AcqOutcome.dlFailPartial⟩ : CoreEnv)
        (⟨true, some ["x86_64"], false⟩ : FsState)).1 = false ∧
    install_core
        (⟨true, true, some "arm64", "arm64", fun _ => AcqOutcome.dlFailPartial⟩ : CoreEnv)
        (⟨true, some ["x86_64"], false⟩ : FsState) =
      (none, (⟨false, none, true⟩ : FsState), 1) := by
  refine ⟨rfl, by decide, by decide⟩

/-- C2 (amended): when remediation discards a mismatched artifact and the
subsequent reacquisition fails (in any of its failure modes), the failure
is reported as `none`, exactly one acquisition was attempted, and the cores
directory is left with NO core installed: the previously installed
mismatched artifact was already deleted and is not restored. -/
theorem C2_failed_reacquisition (env : CoreEnv) (s : FsState)
    (hc : s.coreExists = true)
    (hv : (verify_core_arch env s).1 = false)
    (hacq : ∀ a content, env.acq a ≠ AcqOutcome.ok content) :
    (install_core env s).1 = none ∧
    (install_core env s).2.1.coreExists = false ∧
    (install_core env s).2.2 = 1 := by
  unfold install_core
  rcases hV : verify_core_arch env s with ⟨b, ca, na⟩
  rw [hV] at hv
  simp at hv
  subst hv
  simp only [find_n64_core, hc, if_true]
  unfold install_core_forced
  cases hA : env.acq (na.getD "") with
  | ok content => exact absurd hA (hacq _ _)
  | dlFailClean => simp
  | dlFailPartial => simp
  | unzipFail => simp

/-- C2 witness: concrete mismatched core plus a clean download failure —
failure reported, one acquisition, no core left installed. -/
theorem C2_witness :
    (install_core
        (⟨true, true, some "arm64", "arm64", fun _ => AcqOutcome.dlFailClean⟩ : CoreEnv)
        (⟨true, some ["x86_64"], false⟩ : FsState)).1 = none ∧
    (install_core
        (⟨true, true, some "arm64", "arm64", fun _ => AcqOutcome.dlFailClean⟩ : CoreEnv)
        (⟨true, some ["x86_64"], false⟩ : FsState)).2.1.coreExists = false ∧
    (install_core
        (⟨true, true, some "arm64", "arm64", fun _ => AcqOutcome.dlFailClean⟩ : CoreEnv)
        (⟨true, some ["x86_64"], false⟩ : FsState)).2.2 = 1 :=
  C2_failed_reacquisition _ _ rfl (by decide)
    (fun a content h => AcqOutcome.noConfusion h)

/-- The application-scoped override test of line 743: `"x86_64" in
result.stdout` of the `LSArchitecturePriority` read, `False` when the
`defaults` call raised. -/
def lsPriorityForces (env : HostEnv) : Bool :=
  match env.lsArchPriority with
  | some out => containsSub "x86_64" out
  | none => false

/-- The system-scoped translation-layer marker test of line 755:
`result.returncode == 0` of the `com.apple.rosetta` read, `False` when the
call raised. -/
def rosettaForces (env : HostEnv) : Bool :=
  match env.rosettaReadOk with
  | some rc0 => rc0
  | none => false

/-- C4 counterexample: the host binary probes as Universal, the
application-scoped architecture-priority setting names `arm64` (an override
present), there is no translation-layer marker, and the machine's native
variant is `x86_64` — the resolver returns `"x86_64"`, not the overridden
`"arm64"`: the claim that the override wins "for either variant" fails. -/
theorem C4_counterexample :
    get_binary_arch (⟨true, true, some ["arm64", "x86_64"]⟩ : BinEnv) =
      some "universal" ∧
    lsPriorityForces (⟨true, ⟨true, true, some ["arm64", "x86_64"]⟩,
      some "arm64", some false, false, "x86_64"⟩ : HostEnv) = false ∧
    containsSub "arm64" "arm64" = true ∧
    get_retroarch_running_arch (⟨true, ⟨true, true, some ["arm64", "x86_64"]⟩,
      some "arm64", some false, false, "x86_64"⟩ : HostEnv) = "x86_64" ∧
    ("x86_64" : String) ≠ "arm64" := by
  refine ⟨by decide, by decide, by decide, by decide, by decide⟩

/-- C4 (amended): when the host binary probes as Universal, the resolver
returns the current machine's native variant if neither preference-store
override fires, and returns `"x86_64"` whenever the application-scoped
setting mentions `x86_64` or the system-scoped translation-layer marker
reads successfully — i.e. the override wins over the platform default only
toward the translated `x86_64` variant; a setting naming `arm64` is
ignored. -/
theorem C4_universal_override (env : HostEnv)
    (hex : env.raExists = true)
    (hu : get_binary_arch env.raProbe = some "universal") :
    (lsPriorityForces env = false → rosettaForces env = false →
      get_retroarch_running_arch env =
        (if env.isAppleSilicon then "arm64" else "x86_64")) ∧
    (lsPriorityForces env = true ∨ rosettaForces env = true →
      get_retroarch_running_arch env = "x86_64") := by
  constructor
  · intro h1 h2
    unfold get_retroarch_running_arch
    unfold lsPriorityForces at h1
    unfold rosettaForces at h2
    simp [hex, hu, h1, h2]
  · intro h
    unfold get_retroarch_running_arch
    rcases h with h | h
    · unfold lsPriorityForces at h
      simp [hex, hu, h]
    · unfold rosettaForces at h
      by_cases h1 : (match env.lsArchPriority with
          | some out => containsSub "x86_64" out
          | none => false) = true
      · simp [hex, hu, h1]
      · simp [hex, hu, h1, h]

/-- C4 witness: a Universal host binary with no overrides on an
Apple-Silicon machine resolves to the native `arm64`. -/
theorem C4_witness :
    get_retroarch_running_arch (⟨true, ⟨true, true, some ["arm64", "x86_64"]⟩,
      none, none, true, "arm64"⟩ : HostEnv) = "arm64" :=
  (C4_universal_override
    (⟨true, ⟨true, true, some ["arm64", "x86_64"]⟩, none, none, true,
      "arm64"⟩ : HostEnv) rfl (by decide)).1 rfl rfl

/-- C1 counterexample: device name `"Xbox 360"` contains profile
`xbox_360`'s name pattern, and its vendor id `0x0079` matches profile
`nes`'s vendor list; since `nes` is declared earlier and the matcher
interleaves both tiers in a single registry pass, it returns `nes`, not
`xbox_360` — refuting "Tier 1 always wins over Tier 2 across the whole
registry, regardless of declaration order". -/
theorem C1_counterexample :
    tier1Hit db_xbox_360 (lowerStr "Xbox 360") = true ∧
    tier2Hit db_nes "0x0079" "" = true ∧
    identify_controller CONTROLLER_DATABASE "Xbox 360" "0x0079" "" =
      some (mkHit db_nes "Xbox 360" "0x0079" "") ∧
    (mkHit db_nes "Xbox 360" "0x0079" "").id = "nes" ∧
    db_nes.key ≠ db_xbox_360.key := by
  refine ⟨by decide, by decide, by decide, by decide, by decide⟩

/-- C1 (amended): the matcher walks the registry once in declaration order,
checking Tier 1 before Tier 2 within each profile; hence a Tier-1
name-pattern match on profile X takes precedence over any other profile's
Tier-2 vendor match only when every profile declared before X matches by
neither tier — in that case X is returned regardless of what follows it
(in particular regardless of later vendor-id matches). -/
theorem C1_registry_order_precedence (pre post : List Profile) (p : Profile)
    (name vid pid : String)
    (hpre : ∀ q ∈ pre, tier1Hit q (lowerStr name) = false ∧
      tier2Hit q vid pid = false)
    (hp : tier1Hit p (lowerStr name) = true) :
    identify_controller (pre ++ p :: post) name vid pid =
      some (mkHit p name vid pid) := by
  induction pre with
  | nil => simpa using identify_cons_tier1 p post name vid pid hp
  | cons q rest ih =>
    have hq := hpre q (List.mem_cons_self q rest)
    have step := identify_cons_no_match q (rest ++ p :: post) name vid pid
      hq.1 hq.2
    calc identify_controller ((q :: rest) ++ p :: post) name vid pid
        = identify_controller (rest ++ p :: post) name vid pid := step
      _ = some (mkHit p name vid pid) :=
          ih (fun r hr => hpre r (List.mem_cons_of_mem q hr))

/-- C1 witness: with vendor id `0x2DC8` (which Tier-2 matches the *later*
profile `8bitdo_pro2`) and name `"Xbox 360"`, no profile before `xbox_360`
matches by either tier, so the Tier-1 match on `xbox_360` wins on the real
registry. -/
theorem C1_witness :
    identify_controller CONTROLLER_DATABASE "Xbox 360" "0x2DC8" "" =
      some (mkHit db_xbox_360 "Xbox 360" "0x2DC8" "") ∧
    tier2Hit db_8bitdo_pro2 "0x2DC8" "" = true := by
  constructor
  · exact C1_registry_order_precedence
      [db_nes, db_atari_7800, db_master_system, db_snes, db_genesis_3btn,
       db_genesis_6btn, db_turbografx, db_neo_geo, db_ps1, db_saturn, db_n64,
       db_dreamcast, db_ps2, db_xbox_duke, db_xbox_s, db_gamecube]
      [db_ps3, db_wii_remote, db_wii_classic, db_wii_u_pro, db_wii_u_gamepad,
       db_ps4, db_xbox_one, db_steam_controller, db_switch_pro, db_joycon_l,
       db_joycon_r, db_joycon_pair, db_switch_snes, db_switch_n64, db_ps5,
       db_ps5_edge, db_xbox_series, db_xbox_elite_2, db_8bitdo_pro2,
       db_8bitdo_sn30, db_8bitdo_ultimate, db_backbone_one, db_razer_kishi,
       db_gulikit_kingkong, db_hori_split_pad, db_arcade_stick, db_hori_rap,
       db_raphnet_n64, db_mayflash_n64, db_retro_usb, db_generic_xinput,
       db_generic_dinput]
      db_xbox_360 "Xbox 360" "0x2DC8" "" (by decide) (by decide)
  · decide

/-- C3 (code bug evaluation): `detect_all` never resets the previously
active controller, so with a previously selected controller an empty rescan
keeps the stale selection (the claim requires none), and a rescan whose
matched set contains only a non-priority device keeps the stale selection
instead of the sorted list's first element. -/
theorem C3_stale_selection :
    (detect_all
        (some (⟨"a", "A", 2005, "A", "", "", N64Map.table [], true⟩ : Ctrl))
        []).2 =
      some (⟨"a", "A", 2005, "A", "", "", N64Map.table [], true⟩ : Ctrl) ∧
    (detect_all
        (some (⟨"a", "A", 2005, "A", "", "", N64Map.table [], true⟩ : Ctrl))
        [⟨"b", "B", 2023, "B", "", "", N64Map.table [], false⟩]).2 =
      some (⟨"a", "A", 2005, "A", "", "", N64Map.table [], true⟩ : Ctrl) ∧
    sortScan [⟨"b", "B", 2023, "B", "", "", N64Map.table [], false⟩] =
      [⟨"b", "B", 2023, "B", "", "", N64Map.table [], false⟩] ∧
    (⟨"b", "B", 2023, "B", "", "", N64Map.table [], false⟩ : Ctrl) ≠
      (⟨"a", "A", 2005, "A", "", "", N64Map.table [], true⟩ : Ctrl) := by
  refine ⟨by decide, by decide, by decide, by decide⟩

/-- C7: the Mapping Emitter emits nothing when the active controller's
mapping is the sentinel "native"; otherwise, for each target-scheme button
it covers, it emits the profile's mapped source button name when the
profile specifies one and the target button's own name when it does not
(default pass-through), the `l2` line being driven by the profile's `z`
entry with default `l2`. -/
theorem C7_mapping_emitter :
    (∀ c : Ctrl, c.n64_map = N64Map.native →
      get_retroarch_config (some c) = none) ∧
    (∀ (c : Ctrl) (m : List (String × String)) (t : String),
      c.n64_map = N64Map.table m → t ∈ ["a", "b", "start", "l", "r"] →
      ∀ pairs, get_retroarch_config (some c) = some pairs →
        ("input_player1_" ++ t, (m.lookup t).getD t) ∈ pairs) ∧
    (∀ (c : Ctrl) (m : List (String × String)),
      c.n64_map = N64Map.table m →
      ∀ pairs, get_retroarch_config (some c) = some pairs →
        ("input_player1_l2", (m.lookup "z").getD "l2") ∈ pairs) := by
  refine ⟨?_, ?_, ?_⟩
  · intro c h
    simp [get_retroarch_config, h]
  · intro c m t hm ht pairs hp
    simp only [get_retroarch_config, hm] at hp
    injection hp with hp
    subst hp
    simp only [dictGet_eq]
    simp only [List.mem_cons, List.mem_singleton, List.not_mem_nil,
      or_false] at ht
    rcases ht with rfl | rfl | rfl | rfl | rfl
    · exact List.Mem.head _
    · exact List.Mem.tail _ (List.Mem.head _)
    · exact List.Mem.tail _ (List.Mem.tail _ (List.Mem.head _))
    · exact List.Mem.tail _ (List.Mem.tail _ (List.Mem.tail _
        (List.Mem.head _)))
    · exact List.Mem.tail _ (List.Mem.tail _ (List.Mem.tail _
        (List.Mem.tail _ (List.Mem.head _))))
  · intro c m hm pairs hp
    simp only [get_retroarch_config, hm] at hp
    injection hp with hp
    subst hp
    simp only [dictGet_eq]
    exact List.Mem.tail _ (List.Mem.tail _ (List.Mem.tail _
      (List.Mem.tail _ (List.Mem.tail _ (List.Mem.head _)))))

/-- C7 witness: the spec's round-trip example — mapping `a↦x, b↦y` emits
`x` and `y` for the specified buttons and pass-through defaults for the
rest (e.g. `start↦start`). -/
theorem C7_witness :
    get_retroarch_config (some (⟨"w", "W", 2020, "W", "", "",
        N64Map.table [("a", "x"), ("b", "y")], false⟩ : Ctrl)) =
      some [("input_player1_a", "x"), ("input_player1_b", "y"),
        ("input_player1_start", "start"), ("input_player1_l", "l"),
        ("input_player1_r", "r"), ("input_player1_l2", "l2")] ∧
    ("input_player1_start", "start") ∈
      [("input_player1_a", "x"), ("input_player1_b", "y"),
       ("input_player1_start", "start"), ("input_player1_l", "l"),
       ("input_player1_r", "r"), ("input_player1_l2", "l2")] := by
  constructor
  · decide
  · exact C7_mapping_emitter.2.1
      (⟨"w", "W", 2020, "W", "", "",
        N64Map.table [("a", "x"), ("b", "y")], false⟩ : Ctrl)
      [("a", "x"), ("b", "y")] "start" rfl (by decide)
      [("input_player1_a", "x"), ("input_player1_b", "y"),
       ("input_player1_start", "start"), ("input_player1_l", "l"),
       ("input_player1_r", "r"), ("input_player1_l2", "l2")] (by decide)

/-- C10: every Tier-3 generic fallback is synthesized with the priority
flag false and release year 2000, and the selection loop returns an
`auto_detect` (priority) controller whenever the scan contains one — hence
a synthesized unknown-profile device is never selected as active when a
priority-flagged registry match is present. -/
theorem C10_fallback_never_beats_priority :
    (∀ name vid pid,
      CONTROLLER_DATABASE.find?
          (fun p => tier1Hit p (lowerStr name) || tier2Hit p vid pid) = none →
      controller_keywords.any (fun k => containsSub k (lowerStr name)) = true →
      identify_controller CONTROLLER_DATABASE name vid pid =
        some (genericHit name vid pid)) ∧
    (∀ name vid pid, (genericHit name vid pid).auto_detect = false ∧
      (genericHit name vid pid).year = 2000) ∧
    (∀ (prev : Option Ctrl) (cs : List Ctrl),
      (∃ c ∈ cs, c.auto_detect = true) →
      ∃ c', selectActive prev (sortScan cs) = some c' ∧
        c'.auto_detect = true) ∧
    (∀ (prev : Option Ctrl) (cs : List Ctrl) (name vid pid : String),
      (∃ c ∈ cs, c.auto_detect = true) →
      selectActive prev (sortScan cs) ≠ some (genericHit name vid pid)) := by
  have hsel : ∀ (prev : Option Ctrl) (cs : List Ctrl),
      (∃ c ∈ cs, c.auto_detect = true) →
      ∃ c', selectActive prev (sortScan cs) = some c' ∧
        c'.auto_detect = true := by
    intro prev cs hex
    obtain ⟨c, hc, hauto⟩ := hex
    have hmem : c ∈ sortScan cs := (mem_sortScan c cs).mpr hc
    cases hfind : (sortScan cs).find? (fun c => c.auto_detect) with
    | none =>
      exfalso
      have hnone := List.find?_eq_none.mp hfind c hmem
      simp [hauto] at hnone
    | some c' =>
      have h' := List.find?_some hfind
      refine ⟨c', ?_, h'⟩
      have hne : (sortScan cs).isEmpty = false := by
        cases hs : sortScan cs with
        | nil => rw [hs] at hmem; cases hmem
        | cons a l => rfl
      simp [selectActive, hne, hfind]
  refine ⟨?_, ?_, hsel, ?_⟩
  · intro name vid pid hfind hkw
    simp [identify_controller, hfind, hkw]
  · intro name vid pid
    exact ⟨rfl, rfl⟩
  · intro prev cs name vid pid hex heq
    obtain ⟨c', hsel', hauto⟩ := hsel prev cs hex
    rw [hsel'] at heq
    injection heq with heq
    rw [heq] at hauto
    simp [genericHit] at hauto

/-- C10 witness: a device named "super joypad" reaches Tier 3 on the real
registry and is synthesized non-priority; it is never selected when a
priority device is in the scan. -/
theorem C10_witness :
    identify_controller CONTROLLER_DATABASE "super joypad" "" "" =
      some (genericHit "super joypad" "" "") ∧
    (genericHit "super joypad" "" "").auto_detect = false ∧
    selectActive none
        (sortScan [⟨"sp", "SP", 2017, "SP", "", "", N64Map.table [], true⟩]) ≠
      some (genericHit "super joypad" "" "") := by
  refine ⟨?_, ?_, ?_⟩
  · exact C10_fallback_never_beats_priority.1 "super joypad" "" ""
      (by decide) (by decide)
  · exact (C10_fallback_never_beats_priority.2.1 "super joypad" "" "").1
  · exact C10_fallback_never_beats_priority.2.2.2 none
      [⟨"sp", "SP", 2017, "SP", "", "", N64Map.table [], true⟩]
      "super joypad" "" ""
      ⟨⟨"sp", "SP", 2017, "SP", "", "", N64Map.table [], true⟩,
        List.Mem.head _, rfl⟩

end CatsHLE
